import Mathlib

/-!
Verification of `src/utils/data_tools.py` (functions `read_all_excel_sheets`
and `df_overview`) against its specification.

The embedding models a pandas DataFrame as a `Sheet`: an ordered list of
column names together with rows of cells.  A cell is either the missing
marker (NaN), a string, or a number.  File input/output, the random number
generator used by `Series.sample`, and chart rendering are abstracted into
explicit parameters: the read outcome is an `Except String Sheet` (or
`Except String Workbook` for the loader), the random draw of `sample` is an
arbitrary reordering of the population, and chart display is an
`Except String Unit`.  Console output of the profiler is modelled as the
list of blocks it prints, in order.
-/

/-- A cell of a loaded table: the missing marker (pandas NaN), a string, or
a number. -/
inductive Cell where
  | missing : Cell
  | str : String → Cell
  | num : ℚ → Cell
deriving DecidableEq, Repr

/-- `isMissing c` models `pd.isnull` on a single cell. -/
def isMissing : Cell → Bool
  | Cell.missing => true
  | _ => false

/-- `Cell.isStr c` holds when the cell value is of string type. -/
def Cell.isStr : Cell → Bool
  | Cell.str _ => true
  | _ => false

/-- A loaded sheet (pandas DataFrame): ordered column names and the rows of
cells.  Rows correspond positionally across columns. -/
structure Sheet where
  colNames : List String
  rows : List (List Cell)
deriving DecidableEq, Repr

def Sheet.numRows (df : Sheet) : Nat := df.rows.length

def Sheet.numCols (df : Sheet) : Nat := df.colNames.length

/-- The cells of column `j`, in row order (`df[col]` for the `j`-th column
name).  Short rows are padded with the missing marker; on well-formed
sheets every row has length `numCols`. -/
def Sheet.colAt (df : Sheet) (j : Nat) : List Cell :=
  df.rows.map (fun r => r.getD j Cell.missing)

/-- `df[col].dtype == 'object'`: pandas infers the `object` dtype exactly
when the column holds at least one string value; all-numeric and all-missing
columns get a numeric dtype (`float64`/`int64`). -/
def isObjectCol (col : List Cell) : Bool :=
  col.any Cell.isStr

/-- The dtype name shown in the data-quality block; only the
object/non-object distinction matters to the profiler's control flow. -/
def dtypeName (col : List Cell) : String :=
  if isObjectCol col then "object" else "float64"

/-- `df[col].dropna()`: the non-missing cells of a column, in order. -/
def dropna (col : List Cell) : List Cell :=
  col.filter (fun c => !isMissing c)

/-- `df[col].isnull().sum()`: number of missing cells. -/
def missingCount (col : List Cell) : Nat :=
  col.countP isMissing

/-- Number of non-missing cells of a column. -/
def nonMissingCount (col : List Cell) : Nat :=
  col.countP (fun c => !isMissing c)

/-- `df[col].nunique()`: number of distinct non-missing values. -/
def nunique (col : List Cell) : Nat :=
  (dropna col).dedup.length

/-- `Series.mean` of a list of rationals: `NaN` (modelled as `none`) on an
empty series, otherwise the sum divided by the length. -/
def seriesMean (l : List ℚ) : Option ℚ :=
  if l.length = 0 then none else some (l.sum / l.length)

/-- Round a rational to the nearest integer, ties to even (the rounding used
by Python `round` and numpy). -/
def roundHalfEven (q : ℚ) : ℤ :=
  if q - ⌊q⌋ < 1/2 then ⌊q⌋
  else if 1/2 < q - ⌊q⌋ then ⌊q⌋ + 1
  else if ⌊q⌋ % 2 = 0 then ⌊q⌋ else ⌊q⌋ + 1

/-- `.round(1)`: round to one decimal place, ties to even. -/
def round1 (q : ℚ) : ℚ :=
  (roundHalfEven (q * 10) : ℚ) / 10

/-- `(df[col].isnull().mean() * 100).round(1)`: the reported missing-value
percentage; `none` models the NaN that pandas produces on a 0-row column. -/
def pctMissingCol (col : List Cell) : Option ℚ :=
  (seriesMean (col.map (fun c => if isMissing c then (1 : ℚ) else 0))).map
    (fun m => round1 (m * 100))

/-- One row of the profiler's data-quality table (`dq` in the source):
column name (the row label), inferred dtype, missing count, missing
percentage, distinct non-missing count. -/
structure DQRow where
  colName : String
  dataType : String
  missingValues : Nat
  pctMissing : Option ℚ
  uniqueValues : Nat
deriving DecidableEq, Repr

def dqDefault : DQRow := ⟨"", "", 0, none, 0⟩

/-- The data-quality table: one row per column, in the sheet's column
order. -/
def dataQuality (df : Sheet) : List DQRow :=
  (List.range df.numCols).map (fun j =>
    ⟨df.colNames.getD j "", dtypeName (df.colAt j), missingCount (df.colAt j),
     pctMissingCol (df.colAt j), nunique (df.colAt j)⟩)

/-- Count of rows marked by `df.duplicated()`: rows fully equal to some
earlier row (`seen` holds the rows already scanned). -/
def dupAux (seen : List (List Cell)) : List (List Cell) → Nat
  | [] => 0
  | r :: rest => (if r ∈ seen then 1 else 0) + dupAux (r :: seen) rest

/-- `df.duplicated().sum()`: number of rows equal (on all columns) to an
earlier row. -/
def dupRowCount (rows : List (List Cell)) : Nat :=
  dupAux [] rows

/-- The profiler's metadata block.  The memory-usage entry
(`df.memory_usage(deep=True)`) is a library-internal byte count and is not
modelled; no claim concerns it. -/
structure Metadata where
  sheetName : String
  rowCount : Nat
  colCount : Nat
  duplicateRows : Nat
deriving DecidableEq, Repr

def metadata (sheetName : String) (df : Sheet) : Metadata :=
  ⟨sheetName, df.numRows, df.numCols, dupRowCount df.rows⟩

/-- The message of the ValueError pandas raises when a sample without
replacement exceeds the population. -/
def sampleErrorMsg : String :=
  "Cannot take a larger sample than population when replace is False"

/-- `Series.sample(n)` (without replacement): the random draw is modelled by
letting the caller supply the population in an arbitrary order (`shuffled`)
and taking its first `n` elements; the call raises exactly when `n` exceeds
the population size. -/
def pdSample (shuffled : List Cell) (n : Nat) : Except String (List Cell) :=
  if n ≤ shuffled.length then Except.ok (shuffled.take n)
  else Except.error sampleErrorMsg

/-- The per-column body of the sample-values loop of `df_overview`, with the
random order supplied by `σ`:
object dtype → `df[col].dropna().sample(min(3, len(df[col])))`;
otherwise, nonempty → `df[col].sample(min(3, len(df[col])))`;
otherwise → `[]`. -/
def sampleCol (col : List Cell) (σ : List Cell → List Cell) :
    Except String (List Cell) :=
  if isObjectCol col then
    pdSample (σ (dropna col)) (min 3 col.length)
  else if col.length ≠ 0 then
    pdSample (σ col) (min 3 col.length)
  else
    Except.ok []

/-- The whole sample-values loop: per column in order, stopping at the first
raised error, pairing each column name with its sampled values. -/
def sampleStep (df : Sheet) (σ : Nat → List Cell → List Cell) :
    Except String (List (String × List Cell)) :=
  (List.range df.numCols).mapM (fun j =>
    (sampleCol (df.colAt j) (σ j)).map (fun s => (df.colNames.getD j "", s)))

/-- One item of the profiler's observable output: a printed block, the
displayed chart, or the diagnostic line of the `except` handler. -/
inductive OutItem where
  | metadataBlock : Metadata → OutItem
  | dqBlock : List DQRow → OutItem
  | sampleBlock : List (String × List Cell) → OutItem
  | chartShown : List (String × Option ℚ) → OutItem
  | errorLine : String → String → OutItem
deriving DecidableEq, Repr

/-- Recognizer for the diagnostic line. -/
def isErrLine : OutItem → Bool
  | OutItem.errorLine _ _ => true
  | _ => false

/-- Recognizer for the metadata block. -/
def isMetaBlock : OutItem → Bool
  | OutItem.metadataBlock _ => true
  | _ => false

/-- `df_overview(file_path, sheet_name)`: the read outcome stands for
`pd.read_excel(file_path, sheet_name=sheet_name)`, `σ` for the random
orders used by `sample`, and `chart` for the outcome of building and
showing the plotly figure.  The whole body sits in a `try`/`except` that
prints a single diagnostic line naming the sheet and the error; the three
text blocks are computed first and only then printed, and the chart comes
last. -/
def df_overview (sheetName : String) (readRes : Except String Sheet)
    (σ : Nat → List Cell → List Cell) (chart : Except String Unit) :
    List OutItem :=
  match readRes with
  | Except.error e => [OutItem.errorLine sheetName e]
  | Except.ok df =>
    let m := metadata sheetName df
    let dq := dataQuality df
    match sampleStep df σ with
    | Except.error e => [OutItem.errorLine sheetName e]
    | Except.ok sv =>
      [OutItem.metadataBlock m, OutItem.dqBlock dq, OutItem.sampleBlock sv] ++
      (match chart with
       | Except.ok _ =>
         [OutItem.chartShown (dq.map (fun row => (row.colName, row.pctMissing)))]
       | Except.error e => [OutItem.errorLine sheetName e])

/-- A cell as it sits in the spreadsheet file, before any loading: empty,
text, or a number. -/
inductive RawCell where
  | empty : RawCell
  | text : String → RawCell
  | number : ℚ → RawCell
deriving DecidableEq, Repr

/-- A sheet of the workbook file as stored on disk. -/
structure RawSheet where
  colNames : List String
  rows : List (List RawCell)
deriving DecidableEq, Repr

/-- A workbook file: named sheets in workbook order. -/
structure Workbook where
  sheets : List (String × RawSheet)
deriving DecidableEq, Repr

/-- Loading a single cell under `dtype=str, na_values=['', 'NA']`: empty
cells stay missing (NaN), the two marker strings are normalized to missing,
every other value is kept as its string rendering (number formatting is
abstracted as `toString`). -/
def coerceCell : RawCell → Cell
  | RawCell.empty => Cell.missing
  | RawCell.text s => if s = "" ∨ s = "NA" then Cell.missing else Cell.str s
  | RawCell.number q => Cell.str (toString q)

def coerceSheet (rs : RawSheet) : Sheet :=
  ⟨rs.colNames, rs.rows.map (List.map coerceCell)⟩

/-- `read_all_excel_sheets(file_path)`: `pd.read_excel(file_path,
sheet_name=None, dtype=str, na_values=['', 'NA'])` with no error handling
around it.  The argument stands for the outcome of opening and parsing the
file: any I/O or format error is passed through untouched, a parsed
workbook yields one coerced table per sheet, keyed by sheet name. -/
def read_all_excel_sheets (src : Except String Workbook) :
    Except String (List (String × Sheet)) :=
  src.map (fun wb => wb.sheets.map (fun p => (p.1, coerceSheet p.2)))

/-! ### Concrete sheets and workbooks used by witnesses and counterexamples -/

/-- A sheet with one text-typed column of 3 rows of which 1 is non-missing:
`df[col].dropna().sample(min(3, len(df[col])))` asks for 3 draws from a
population of 1. -/
def badSheetC2 : Sheet :=
  ⟨["c"], [[Cell.str "a"], [Cell.missing], [Cell.missing]]⟩

/-- A sheet with one non-text column of 4 rows, all missing. -/
def sheetAllMissing : Sheet :=
  ⟨["c"], [[Cell.missing], [Cell.missing], [Cell.missing], [Cell.missing]]⟩

/-- A sheet with one column and zero rows (a header-only sheet). -/
def sheetNoRows : Sheet := ⟨["c"], []⟩

/-- A two-column, two-row sheet with one missing cell per column. -/
def sheetW : Sheet :=
  ⟨["a", "b"], [[Cell.num 1, Cell.missing], [Cell.missing, Cell.str "x"]]⟩

/-- A sheet whose rows are pairwise distinct. -/
def sheetNodup : Sheet := ⟨["a"], [[Cell.num 1], [Cell.num 2]]⟩

/-- A workbook with one sheet holding an empty cell, a numeric cell, an
`"NA"` cell and an ordinary text cell. -/
def wbMixed : Workbook :=
  ⟨[("S", ⟨["c"], [[RawCell.empty], [RawCell.number 5],
                   [RawCell.text "NA"], [RawCell.text "x"]]⟩)]⟩

/-- A workbook with two sheets. -/
def wbTwo : Workbook :=
  ⟨[("Summary", ⟨["a"], [[RawCell.number 1]]⟩),
    ("Detail", ⟨["b"], [[RawCell.text "y"]]⟩)]⟩

/-! ### Helper lemmas -/

lemma length_colAt (df : Sheet) (j : Nat) :
    (df.colAt j).length = df.numRows := by
  simp [Sheet.colAt, Sheet.numRows]

lemma missing_add_nonMissing (col : List Cell) :
    missingCount col + nonMissingCount col = col.length := by
  simpa [missingCount, nonMissingCount] using
    (List.length_eq_countP_add_countP isMissing col).symm

lemma dupAux_add_card (seen : List (List Cell)) (l : List (List Cell)) :
    dupAux seen l + (l.toFinset \ seen.toFinset).card = l.length := by
  induction l generalizing seen with
  | nil => simp [dupAux]
  | cons r rest ih =>
    by_cases hr : r ∈ seen
    · have hins : insert r seen.toFinset = seen.toFinset :=
        Finset.insert_eq_self.mpr (List.mem_toFinset.mpr hr)
      have h1 := ih (r :: seen)
      rw [List.toFinset_cons, hins] at h1
      have h2 : insert r rest.toFinset \ seen.toFinset =
          rest.toFinset \ seen.toFinset :=
        Finset.insert_sdiff_of_mem _ (List.mem_toFinset.mpr hr)
      simp only [dupAux, if_pos hr, List.toFinset_cons, h2, List.length_cons]
      omega
    · have h1 := ih (r :: seen)
      rw [List.toFinset_cons, Finset.sdiff_insert] at h1
      by_cases hrA : r ∈ rest.toFinset \ seen.toFinset
      · have hcardE := Finset.card_erase_of_mem hrA
        have hpos : 0 < (rest.toFinset \ seen.toFinset).card :=
          Finset.card_pos.mpr ⟨r, hrA⟩
        have hins : insert r rest.toFinset \ seen.toFinset =
            rest.toFinset \ seen.toFinset := by
          rw [Finset.insert_sdiff_of_not_mem _
                (fun hmem => hr (List.mem_toFinset.mp hmem)),
              Finset.insert_eq_self.mpr hrA]
        simp only [dupAux, if_neg hr, List.toFinset_cons, hins,
          List.length_cons]
        omega
      · have herase : (rest.toFinset \ seen.toFinset).erase r =
            rest.toFinset \ seen.toFinset :=
          Finset.erase_eq_of_not_mem hrA
        have hins : insert r rest.toFinset \ seen.toFinset =
            insert r (rest.toFinset \ seen.toFinset) :=
          Finset.insert_sdiff_of_not_mem _
            (fun hmem => hr (List.mem_toFinset.mp hmem))
        have hcardI := Finset.card_insert_of_not_mem hrA
        simp only [dupAux, if_neg hr, List.toFinset_cons, hins, hcardI,
          herase, List.length_cons] at *
        omega

lemma dupRowCount_closed (rows : List (List Cell)) :
    dupRowCount rows + rows.toFinset.card = rows.length := by
  have h := dupAux_add_card [] rows
  simpa [dupRowCount, List.toFinset_nil] using h

/-! ### Claims -/

/-- Claim C1 (confirmed): the profiler fails soft.  Every failure — during
loading (the read outcome), statistics computation (sampling), or chart
rendering — is caught at the top level: the output never holds more than
one diagnostic line, and when the requested sheet is absent (the read
raises), the output is exactly one diagnostic line naming the sheet and the
underlying error message; the function returns normally (the model is a
total function into an output list, never an exception). -/
theorem df_overview_fails_soft (name : String)
    (σ : Nat → List Cell → List Cell) (chart : Except String Unit) :
    (∀ e, df_overview name (Except.error e) σ chart =
      [OutItem.errorLine name e]) ∧
    (∀ readRes, (df_overview name readRes σ chart).countP isErrLine ≤ 1) := by
  refine ⟨fun e => rfl, fun readRes => ?_⟩
  cases readRes with
  | error e => simp [df_overview, List.countP_cons, isErrLine]
  | ok df =>
    cases h : sampleStep df σ with
    | error e => simp [df_overview, h, List.countP_cons, isErrLine]
    | ok sv =>
      cases chart with
      | error e => simp [df_overview, h, List.countP_cons, isErrLine]
      | ok u => simp [df_overview, h, List.countP_cons, isErrLine]

/-- Claim C2 (code bug): on a text-typed column with 3 rows of which only 1
is non-missing, the sample step asks `sample` for `min(3, len(df[col])) = 3`
draws from the 1-element `dropna()` population, so pandas raises a
ValueError; the outer handler turns the whole report into a single
diagnostic line.  The claimed `min(3, available non-missing) = 1` draw
never happens. -/
theorem df_overview_sample_raises_on_sparse_text_column :
    df_overview "Sheet1" (Except.ok badSheetC2) (fun _ l => l)
      (Except.ok ()) = [OutItem.errorLine "Sheet1" sampleErrorMsg] := by
  rfl

/-- Claim C5 (confirmed): loading a workbook returns a mapping with one
entry per sheet whose keys are exactly the workbook's sheet names, in
workbook order (hence equal as sets). -/
theorem read_all_excel_sheets_keys (wb : Workbook) :
    ∃ sheets, read_all_excel_sheets (Except.ok wb) = Except.ok sheets ∧
      sheets.map Prod.fst = wb.sheets.map Prod.fst ∧
      sheets.length = wb.sheets.length := by
  refine ⟨_, rfl, ?_, ?_⟩ <;> simp [read_all_excel_sheets, Except.map]

/-- Claim C7 (confirmed): when opening or parsing the file fails, the
loader propagates the underlying error unmodified and returns no partial
result. -/
theorem read_all_excel_sheets_propagates_error (e : String) :
    read_all_excel_sheets (Except.error e) = Except.error e ∧
    ∀ sheets, read_all_excel_sheets (Except.error e) ≠ Except.ok sheets := by
  refine ⟨rfl, fun sheets h => ?_⟩
  simp [read_all_excel_sheets, Except.map] at h

/-- Claim C10 (confirmed): the Duplicate Rows metadata value counts the
rows fully equal to some earlier row, i.e. row count minus the number of
distinct rows — a group of `k` identical rows contributes `k - 1` — and a
sheet whose rows are pairwise distinct reports 0. -/
theorem metadata_duplicate_rows (name : String) (df : Sheet) :
    (metadata name df).duplicateRows =
      df.numRows - df.rows.toFinset.card ∧
    (df.rows.Nodup → (metadata name df).duplicateRows = 0) := by
  have h := dupRowCount_closed df.rows
  have hle := List.toFinset_card_le df.rows
  refine ⟨?_, fun hnd => ?_⟩
  · simp only [metadata, Sheet.numRows]
    omega
  · have hcard := List.toFinset_card_of_nodup hnd
    simp only [metadata, Sheet.numRows]
    omega

/-- Witness for C10 at a concrete duplicate-free sheet. -/
theorem metadata_duplicate_rows_witness :
    (metadata "W" sheetNodup).duplicateRows =
      sheetNodup.numRows - sheetNodup.rows.toFinset.card ∧
    (metadata "W" sheetNodup).duplicateRows = 0 :=
  ⟨(metadata_duplicate_rows "W" sheetNodup).1,
   (metadata_duplicate_rows "W" sheetNodup).2 (by decide)⟩

lemma sum_isMissing_indicator (col : List Cell) :
    (col.map (fun c => if isMissing c then (1 : ℚ) else 0)).sum =
      (missingCount col : ℚ) := by
  induction col with
  | nil => simp [missingCount]
  | cons c cs ih =>
    cases hc : isMissing c
    · simp [missingCount, List.countP_cons, hc, ih]
    · simp only [List.map_cons, List.sum_cons, hc, if_true, ih,
        missingCount, List.countP_cons]
      push_cast
      ring

lemma dataQuality_getD (df : Sheet) (j : Nat) (h : j < df.numCols) :
    (dataQuality df).getD j dqDefault =
      ⟨df.colNames.getD j "", dtypeName (df.colAt j),
       missingCount (df.colAt j), pctMissingCol (df.colAt j),
       nunique (df.colAt j)⟩ := by
  simp [dataQuality, List.getD_eq_getElem?_getD, List.getElem?_map,
    List.getElem?_range h]

lemma map_getD_range {α : Type} (l : List α) (d : α) :
    (List.range l.length).map (fun j => l.getD j d) = l := by
  induction l with
  | nil => simp
  | cons a t ih =>
    rw [List.length_cons, List.range_succ_eq_map, List.map_cons,
      List.map_map]
    have hcomp : ((fun j => (a :: t).getD j d) ∘ Nat.succ) =
        (fun j => t.getD j d) := rfl
    rw [hcomp, ih]
    rfl

lemma roundHalfEven_nonneg {q : ℚ} (hq : 0 ≤ q) :
    0 ≤ roundHalfEven q := by
  have hf : (0 : ℤ) ≤ ⌊q⌋ := Int.le_floor.mpr (by exact_mod_cast hq)
  unfold roundHalfEven
  split_ifs <;> omega

lemma roundHalfEven_le {q : ℚ} {B : ℤ} (hq : q ≤ (B : ℚ)) :
    roundHalfEven q ≤ B := by
  have hfl : ⌊q⌋ ≤ B := by
    have := Int.floor_le_floor hq
    rwa [Int.floor_intCast] at this
  unfold roundHalfEven
  split_ifs with h1 h2 h3
  · exact hfl
  · have hlt : (⌊q⌋ : ℚ) < q := by linarith
    have : ⌊q⌋ < B := by exact_mod_cast lt_of_lt_of_le hlt hq
    omega
  · exact hfl
  · have h4 : (1 : ℚ)/2 ≤ q - ⌊q⌋ := le_of_not_lt h1
    have hlt : (⌊q⌋ : ℚ) < q := by linarith
    have : ⌊q⌋ < B := by exact_mod_cast lt_of_lt_of_le hlt hq
    omega

lemma round1_bounds {q : ℚ} (h0 : 0 ≤ q) (h100 : q ≤ 100) :
    0 ≤ round1 q ∧ round1 q ≤ 100 := by
  have h1 : 0 ≤ roundHalfEven (q * 10) :=
    roundHalfEven_nonneg (by linarith)
  have h2 : roundHalfEven (q * 10) ≤ 1000 :=
    roundHalfEven_le (B := 1000) (by push_cast; linarith)
  constructor
  · apply div_nonneg _ (by norm_num : (0 : ℚ) ≤ 10)
    exact_mod_cast h1
  · rw [round1, div_le_iff₀ (by norm_num : (0 : ℚ) < 10)]
    calc ((roundHalfEven (q * 10) : ℚ)) ≤ 1000 := by exact_mod_cast h2
    _ = 100 * 10 := by norm_num

lemma pctMissingCol_some_bounds {col : List Cell} (hne : col ≠ []) :
    ∃ p, pctMissingCol col = some p ∧ 0 ≤ p ∧ p ≤ 100 := by
  have hlen : 0 < col.length := List.length_pos.mpr hne
  have hq0 : (0 : ℚ) < (col.length : ℚ) := by exact_mod_cast hlen
  have hcle : missingCount col ≤ col.length :=
    List.countP_le_length isMissing
  have hfrac0 : 0 ≤ (missingCount col : ℚ) / (col.length : ℚ) * 100 := by
    positivity
  have hfrac100 : (missingCount col : ℚ) / (col.length : ℚ) * 100 ≤ 100 := by
    have hle1 : (missingCount col : ℚ) / (col.length : ℚ) ≤ 1 :=
      (div_le_one hq0).mpr (by exact_mod_cast hcle)
    nlinarith
  refine ⟨round1 ((missingCount col : ℚ) / (col.length : ℚ) * 100), ?_,
    (round1_bounds hfrac0 hfrac100).1, (round1_bounds hfrac0 hfrac100).2⟩
  unfold pctMissingCol seriesMean
  rw [List.length_map, if_neg (by omega), Option.map_some',
    sum_isMissing_indicator]

/-- Claim C6 (confirmed): in the data-quality block, for every column the
missing count plus the non-missing count equals the row count; for a sheet
with at least one row, the reported percentage equals
`round(missing_count / row_count * 100, 1)`; and for a 0-row sheet the
computation stays defined — pandas yields NaN (`none`) rather than raising
a division error. -/
theorem dq_counts_and_pct (df : Sheet) (j : Nat) (h : j < df.numCols) :
    ((dataQuality df).getD j dqDefault).missingValues
        + nonMissingCount (df.colAt j) = df.numRows ∧
    (0 < df.numRows →
      ((dataQuality df).getD j dqDefault).pctMissing =
        some (round1 ((missingCount (df.colAt j) : ℚ) * 100 / df.numRows))) ∧
    (df.numRows = 0 →
      ((dataQuality df).getD j dqDefault).pctMissing = none) := by
  rw [dataQuality_getD df j h]
  refine ⟨?_, ?_, ?_⟩
  · rw [← length_colAt df j]
    exact missing_add_nonMissing _
  · intro hpos
    have hlen : ((df.colAt j).map
        (fun c => if isMissing c then (1 : ℚ) else 0)).length = df.numRows := by
      rw [List.length_map, length_colAt]
    show pctMissingCol (df.colAt j) = _
    unfold pctMissingCol seriesMean
    rw [hlen, if_neg (by omega), Option.map_some', sum_isMissing_indicator]
    have harg : (missingCount (df.colAt j) : ℚ) / (df.numRows : ℚ) * 100 =
        (missingCount (df.colAt j) : ℚ) * 100 / (df.numRows : ℚ) := by
      ring
    rw [harg]
  · intro h0
    have hlen : ((df.colAt j).map
        (fun c => if isMissing c then (1 : ℚ) else 0)).length = 0 := by
      rw [List.length_map, length_colAt, h0]
    show pctMissingCol (df.colAt j) = none
    unfold pctMissingCol seriesMean
    rw [hlen, if_pos rfl]
    rfl

/-- Witness for C6 at a concrete two-column sheet with one missing cell per
column. -/
theorem dq_counts_and_pct_witness :
    ((dataQuality sheetW).getD 0 dqDefault).missingValues
        + nonMissingCount (sheetW.colAt 0) = sheetW.numRows ∧
    ((dataQuality sheetW).getD 0 dqDefault).pctMissing =
      some (round1 ((missingCount (sheetW.colAt 0) : ℚ) * 100
        / sheetW.numRows)) :=
  ⟨(dq_counts_and_pct sheetW 0 (by decide)).1,
   (dq_counts_and_pct sheetW 0 (by decide)).2.1 (by decide)⟩

/-- Claim C8 counterexample: on a header-only sheet (one column, zero
rows) the data-quality table has its one row, but the reported missing
percentage is NaN (`none`), which does not lie in [0,100]. -/
theorem dq_pct_nan_on_zero_rows :
    (dataQuality sheetNoRows).length = 1 ∧
    ((dataQuality sheetNoRows).getD 0 dqDefault).pctMissing = none ∧
    ¬ ∃ p, ((dataQuality sheetNoRows).getD 0 dqDefault).pctMissing = some p ∧
        0 ≤ p ∧ p ≤ 100 := by
  refine ⟨rfl, rfl, ?_⟩
  rintro ⟨p, hp, -, -⟩
  rw [show ((dataQuality sheetNoRows).getD 0 dqDefault).pctMissing = none
    from rfl] at hp
  cases hp

/-- Claim C8 (amended): the data-quality table has exactly one row per
column, in the sheet's original column order; and on a sheet with at least
one row, every reported missing percentage is defined and lies in [0,100].
(On a zero-row sheet the percentage is NaN, per `dq_pct_nan_on_zero_rows`.) -/
theorem dq_shape_and_pct_range (df : Sheet) (j : Nat) :
    (dataQuality df).length = df.numCols ∧
    (dataQuality df).map DQRow.colName = df.colNames ∧
    (j < df.numCols → 0 < df.numRows →
      ∃ p, ((dataQuality df).getD j dqDefault).pctMissing = some p ∧
        0 ≤ p ∧ p ≤ 100) := by
  refine ⟨by simp [dataQuality, Sheet.numCols], ?_, ?_⟩
  · rw [dataQuality, List.map_map]
    exact map_getD_range df.colNames ""
  · intro hj hrows
    rw [dataQuality_getD df j hj]
    have hne : df.colAt j ≠ [] := by
      rw [← List.length_pos, length_colAt]
      exact hrows
    exact pctMissingCol_some_bounds hne

/-- Witness for the amended C8 at a concrete one-column two-row sheet. -/
theorem dq_shape_and_pct_range_witness :
    (dataQuality sheetNodup).length = sheetNodup.numCols ∧
    ∃ p, ((dataQuality sheetNodup).getD 0 dqDefault).pctMissing = some p ∧
      0 ≤ p ∧ p ≤ 100 :=
  ⟨(dq_shape_and_pct_range sheetNodup 0).1,
   (dq_shape_and_pct_range sheetNodup 0).2.2 (by decide) (by decide)⟩

/-- Claim C9 counterexample: on a sheet whose sampling step raises (a
text column with fewer non-missing values than requested draws), the
console shows only the diagnostic line — the metadata and data-quality
blocks, although already computed, were never printed, contradicting the
claim that each block is printed immediately after its own computation. -/
theorem df_overview_no_interleaving :
    df_overview "S" (Except.ok badSheetC2) (fun _ l => l) (Except.ok ()) =
      [OutItem.errorLine "S" sampleErrorMsg] ∧
    (df_overview "S" (Except.ok badSheetC2) (fun _ l => l)
      (Except.ok ())).countP isMetaBlock = 0 :=
  ⟨rfl, rfl⟩

/-- Claim C9 (amended): the output order is fixed — metadata block,
data-quality block, sample block, then chart — but the three text blocks
are all computed before any of them is printed; only the chart is built
and shown after the printing.  Hence a failure while computing the samples
leaves nothing printed but the diagnostic, while a chart failure leaves
all three text blocks printed, followed by the diagnostic. -/
theorem df_overview_print_order (name : String) (df : Sheet)
    (σ : Nat → List Cell → List Cell) (chart : Except String Unit) :
    (∀ sv, sampleStep df σ = Except.ok sv →
      df_overview name (Except.ok df) σ chart =
        [OutItem.metadataBlock (metadata name df),
         OutItem.dqBlock (dataQuality df),
         OutItem.sampleBlock sv] ++
        (match chart with
         | Except.ok _ => [OutItem.chartShown ((dataQuality df).map
             (fun row => (row.colName, row.pctMissing)))]
         | Except.error e => [OutItem.errorLine name e])) ∧
    (∀ e, sampleStep df σ = Except.error e →
      df_overview name (Except.ok df) σ chart =
        [OutItem.errorLine name e]) := by
  constructor
  · intro sv hsv
    simp [df_overview, hsv]
  · intro e he
    simp [df_overview, he]

/-- Witness for the amended C9 at a concrete sheet whose sampling
succeeds and with a successfully displayed chart. -/
theorem df_overview_print_order_witness :
    df_overview "W" (Except.ok sheetNodup) (fun _ l => l) (Except.ok ()) =
      [OutItem.metadataBlock (metadata "W" sheetNodup),
       OutItem.dqBlock (dataQuality sheetNodup),
       OutItem.sampleBlock [("a", [Cell.num 1, Cell.num 2])]] ++
      [OutItem.chartShown ((dataQuality sheetNodup).map
        (fun row => (row.colName, row.pctMissing)))] :=
  (df_overview_print_order "W" sheetNodup (fun _ l => l)
    (Except.ok ())).1 [("a", [Cell.num 1, Cell.num 2])] (by rfl)

/-- Claim C3 counterexample: a non-text column of 4 rows, all missing, is
sampled as `df[col].sample(min(3, 4))` over the full column — the sample
holds 3 values, all of them the missing marker, instead of the claimed
empty selection drawn from non-missing values. -/
theorem sample_includes_missing_for_nontext :
    sampleStep sheetAllMissing (fun _ l => l) =
      Except.ok [("c", [Cell.missing, Cell.missing, Cell.missing])] ∧
    sampleStep sheetAllMissing (fun _ l => l) ≠
      Except.ok [("c", [])] := by
  refine ⟨rfl, fun h => ?_⟩
  rw [show sampleStep sheetAllMissing (fun _ l => l) =
    Except.ok [("c", [Cell.missing, Cell.missing, Cell.missing])]
    from rfl] at h
  injection h with h1
  exact absurd h1 (by decide)

/-- Claim C3 (amended): only for text-typed columns are the samples drawn
exclusively from the non-missing values; for a non-text nonempty column
the code draws `min(3, row count)` values from the whole column, missing
entries included (so an all-missing column yields `min(3, row count)`
missing samples, not an empty selection). -/
theorem sampleCol_population (col : List Cell) (σ : List Cell → List Cell)
    (hσd : (σ (dropna col)).Perm (dropna col))
    (hσc : (σ col).Perm col) :
    (isObjectCol col = true → ∀ s, sampleCol col σ = Except.ok s →
      ∀ c ∈ s, isMissing c = false ∧ c ∈ col) ∧
    (isObjectCol col = false → col ≠ [] →
      ∃ s, sampleCol col σ = Except.ok s ∧ s.length = min 3 col.length ∧
        ∀ c ∈ s, c ∈ col) := by
  constructor
  · intro hobj s hs c hc
    rw [sampleCol, if_pos hobj, pdSample] at hs
    split_ifs at hs with hle
    · cases hs
      have hmem : c ∈ σ (dropna col) := List.take_subset _ _ hc
      have hmem2 : c ∈ dropna col := hσd.mem_iff.mp hmem
      have := List.mem_filter.mp hmem2
      refine ⟨by simpa using this.2, this.1⟩
  · intro hobj hne
    have hlen0 : col.length ≠ 0 := fun h =>
      hne (List.length_eq_zero.mp h)
    have hσlen : (σ col).length = col.length := hσc.length_eq
    have hle : min 3 col.length ≤ (σ col).length := by
      rw [hσlen]; exact min_le_right _ _
    refine ⟨(σ col).take (min 3 col.length), ?_, ?_, ?_⟩
    · rw [sampleCol, if_neg (by simp [hobj]), if_pos hlen0, pdSample,
        if_pos hle]
    · rw [List.length_take, hσlen]
      omega
    · intro c hc
      exact hσc.mem_iff.mp (List.take_subset _ _ hc)

/-- Witness for the amended C3 at a concrete all-missing non-text column
with the identity draw. -/
theorem sampleCol_population_witness :
    ∃ s, sampleCol [Cell.missing, Cell.missing, Cell.missing, Cell.missing]
        (fun l => l) = Except.ok s ∧
      s.length = min 3 4 ∧
      ∀ c ∈ s,
        c ∈ [Cell.missing, Cell.missing, Cell.missing, Cell.missing] :=
  (sampleCol_population _ _ (List.Perm.refl _) (List.Perm.refl _)).2
    (by decide) (by decide)

/-- Claim C4 counterexample: loading a workbook whose sheet holds an empty
cell yields the missing marker (pandas NaN, a float) in that position, not
a value of string type — `dtype=str` converts only the non-missing cells. -/
theorem loader_missing_cells_not_strings :
    read_all_excel_sheets (Except.ok wbMixed) =
      Except.ok [("S", ⟨["c"], [[Cell.missing], [Cell.str "5"],
                               [Cell.missing], [Cell.str "x"]]⟩)] ∧
    Cell.isStr Cell.missing = false :=
  ⟨rfl, rfl⟩

/-- Claim C4 (amended): in every successfully loaded workbook, every cell
is either of string type or the missing marker; the marker arises exactly
for cells that are empty or whose text is one of the `na_values` markers
(the empty string and `"NA"`). -/
theorem loader_cells_string_or_missing (src : Except String Workbook)
    (sheets : List (String × Sheet))
    (h : read_all_excel_sheets src = Except.ok sheets) :
    ∀ p ∈ sheets, ∀ r ∈ p.2.rows, ∀ c ∈ r,
      c = Cell.missing ∨ c.isStr = true := by
  cases src with
  | error e => simp [read_all_excel_sheets, Except.map] at h
  | ok wb =>
    simp only [read_all_excel_sheets, Except.map] at h
    cases h
    intro p hp r hr c hc
    rcases List.mem_map.mp hp with ⟨q, hq, rfl⟩
    simp only [coerceSheet] at hr
    rcases List.mem_map.mp hr with ⟨row, hrow, rfl⟩
    rcases List.mem_map.mp hc with ⟨rc, hrc, rfl⟩
    cases rc with
    | empty => exact Or.inl rfl
    | text s =>
      by_cases hs : s = "" ∨ s = "NA"
      · exact Or.inl (by simp [coerceCell, hs])
      · exact Or.inr (by simp [coerceCell, hs, Cell.isStr])
    | number q => exact Or.inr rfl

/-- Witness for the amended C4: the numeric cell of `wbMixed` loads as the
string `"5"`. -/
theorem loader_cells_string_or_missing_witness :
    Cell.str "5" = Cell.missing ∨ (Cell.str "5").isStr = true :=
  loader_cells_string_or_missing (Except.ok wbMixed) _ rfl
    ("S", ⟨["c"], [[Cell.missing], [Cell.str "5"],
                   [Cell.missing], [Cell.str "x"]]⟩)
    (by decide) [Cell.str "5"] (by decide) (Cell.str "5") (by decide)
